import Mathlib

/-!
Verification development for the session-identity cache (`userCache`) and the
account-settings profile-sync flow built on top of it.  The definitions below
are shallow embeddings of the two source modules: the publish/subscribe cache
(`cachedUser`, `notify`, `setCurrentUser`, `subscribe`, `clear`) and the pure
decision logic of the settings page (`defaultFormState`, change-set
construction, submit/fetch handlers and server-error mapping).
-/

namespace Spec2Proof

/-- The cached identity record: id, username, email, optional avatar. -/
structure User where
  id : Nat
  username : String
  email : String
  avatar : Option String
deriving DecidableEq, Repr

/-! ## SessionCache (the `userCache` module)

The cache holds `cachedUser : Option User` and an insertion-ordered set of
listeners.  Listener callbacks are arbitrary client code; we embed the family
of behaviours the claims exercise: a passive recorder, a one-shot re-entrant
`setCurrentUser` issued from inside the callback, and a listener that calls
its own unsubscribe token from inside its callback.  Execution is fuel-indexed
so that nested re-entrant fan-out is structurally terminating; fuel only
limits the depth of nested re-entrant `setCurrentUser` calls. -/

/-- Behaviour of a registered listener when its callback runs. -/
inductive LBehavior where
  /-- records the received value and returns. -/
  | passive
  /-- calls `userCache.setCurrentUser v` from inside the callback; the `armed`
  flag is the listener's own one-shot guard (it fires at most once). -/
  | setOnNotify (v : Option User) (armed : Bool)
  /-- calls its own unsubscribe token from inside the callback. -/
  | unsubSelfOnNotify
deriving DecidableEq, Repr

/-- Cache state: the module-level `cachedUser` plus the listener set,
kept in insertion order as JS `Set` iteration is. -/
structure CState where
  cachedUser : Option User
  listeners : List (Nat × LBehavior)
deriving DecidableEq, Repr

/-- Observable events of a run: a mutation of `cachedUser`, or a listener
invocation `listener(cachedUser)` carrying the value the listener received. -/
inductive Event where
  | mutateEv (v : Option User)
  | notifyEv (id : Nat) (v : Option User)
deriving DecidableEq, Repr

def Event.isMutate : Event → Bool
  | .mutateEv _ => true
  | _ => false

def Event.notifyId : Event → Option Nat
  | .notifyEv i _ => some i
  | _ => none

/-- Look up the current entry of listener `i` (JS: membership in the `Set`,
with the listener's current closure state). -/
def lookupL : List (Nat × LBehavior) → Nat → Option LBehavior
  | [], _ => none
  | (j, b) :: rest, i => if j = i then some b else lookupL rest i

/-- `listeners.delete(listener)` — removes the entry of `i`. -/
def removeL (l : List (Nat × LBehavior)) (i : Nat) : List (Nat × LBehavior) :=
  l.filter (fun e => e.1 ≠ i)

def disarmB : LBehavior → LBehavior
  | .setOnNotify v _ => .setOnNotify v false
  | b => b

/-- Consume the one-shot guard of listener `i`. -/
def disarmL (l : List (Nat × LBehavior)) (i : Nat) : List (Nat × LBehavior) :=
  l.map (fun e => if e.1 = i then (e.1, disarmB e.2) else e)

/-- Run one listener callback: it receives the current `cachedUser` and then
performs its behaviour.  `recSet` is the semantics of a re-entrant
`setCurrentUser` issued from inside the callback. -/
def invokeWith (recSet : CState → Option User → CState × List Event)
    (st : CState) (i : Nat) (b : LBehavior) : CState × List Event :=
  let ev := Event.notifyEv i st.cachedUser
  match b with
  | .passive => (st, [ev])
  | .unsubSelfOnNotify => ({ st with listeners := removeL st.listeners i }, [ev])
  | .setOnNotify v armed =>
    if armed then
      let st1 : CState := { st with listeners := disarmL st.listeners i }
      let r := recSet st1 v
      (r.1, ev :: r.2)
    else (st, [ev])

/-- `listeners.forEach((listener) => listener(cachedUser))`: visit the ids of
the iteration snapshot in order; a listener deleted before its turn is
skipped; each callback reads the `cachedUser` current at its own call. -/
def notifyAllWith (recSet : CState → Option User → CState × List Event) :
    CState → List Nat → CState × List Event
  | st, [] => (st, [])
  | st, i :: rest =>
    match lookupL st.listeners i with
    | none => notifyAllWith recSet st rest
    | some b =>
      let r1 := invokeWith recSet st i b
      let r2 := notifyAllWith recSet r1.1 rest
      (r2.1, r1.2 ++ r2.2)

/-- `userCache.setCurrentUser`: assign `cachedUser` then run `notify()`.
A re-entrant `setCurrentUser` issued during the fan-out runs with one unit of
fuel less; fuel never limits a run whose nesting depth it exceeds. -/
def setCurrentUser : Nat → CState → Option User → CState × List Event
  | 0, st, v => ({ st with cachedUser := v }, [Event.mutateEv v])
  | fuel + 1, st, v =>
    let st1 : CState := { st with cachedUser := v }
    let r := notifyAllWith (fun st2 w => setCurrentUser fuel st2 w) st1
      (st1.listeners.map Prod.fst)
    (r.1, Event.mutateEv v :: r.2)

/-- `notify()` on its own (used to state lemmas about fan-out). -/
def notify (fuel : Nat) (st : CState) : CState × List Event :=
  notifyAllWith (fun st2 w => setCurrentUser fuel st2 w) st (st.listeners.map Prod.fst)

/-- `userCache.clear()`: assign `null` then `notify()` — operationally
`setCurrentUser` with the absent value. -/
def clear (fuel : Nat) (st : CState) : CState × List Event :=
  setCurrentUser fuel st none

/-- `listeners.add(listener)`: a `Set` add is a no-op when the listener is
already present. -/
def addListener (st : CState) (i : Nat) (b : LBehavior) : CState :=
  match lookupL st.listeners i with
  | some _ => st
  | none => { st with listeners := st.listeners ++ [(i, b)] }

/-- `userCache.subscribe`: add the listener, then immediately invoke it with
the current value (`listener(cachedUser)`). -/
def subscribe (fuel : Nat) (st : CState) (i : Nat) (b : LBehavior) :
    CState × List Event :=
  let st1 := addListener st i b
  invokeWith (fun st2 w => setCurrentUser fuel st2 w) st1 i b

/-- The unsubscribe token returned by `subscribe`:
`() => listeners.delete(listener)`. -/
def unsubscribe (st : CState) (i : Nat) : CState :=
  { st with listeners := removeL st.listeners i }

/-- Does the trace contain a notification of listener `i`? -/
def notifiesL (i : Nat) (tr : List Event) : Bool :=
  tr.any (fun e => e.notifyId == some i)

-- concrete users used by counterexamples and witnesses
def uA : User := ⟨1, "ann", "ann@example.com", none⟩
def uB : User := ⟨2, "bob", "bob@example.com", some "https://x/b.png"⟩

example :
    (setCurrentUser 3 ⟨none, [(1, .passive), (2, .passive)]⟩ (some uA)).2 =
      [Event.mutateEv (some uA), Event.notifyEv 1 (some uA),
       Event.notifyEv 2 (some uA)] := by decide

example :
    (subscribe 3 ⟨some uA, [(1, .passive)]⟩ 2 .passive).2 =
      [Event.notifyEv 2 (some uA)] := by decide

/-! ### Trace predicates used to state the notification claims -/

def mutateCount (tr : List Event) : Nat := (tr.filter Event.isMutate).length

/-- The ids notified during the first fan-out: notifications strictly between
the initial mutation and the next mutation of the trace. -/
def firstFanoutNotified (tr : List Event) : List Nat :=
  ((tr.drop 1).takeWhile (fun e => !e.isMutate)).filterMap Event.notifyId

/-- The deferral discipline claimed for re-entrant mutation: whenever a run of
`setCurrentUser` contains a second (re-entrant) mutation, every listener
registered at the initial mutation was already notified before that second
mutation's fan-out began. -/
def reentrantSetDeferred (st : CState) (fuel : Nat) (v : Option User) : Prop :=
  2 ≤ mutateCount (setCurrentUser fuel st v).2 →
    ∀ j ∈ st.listeners.map Prod.fst,
      j ∈ firstFanoutNotified (setCurrentUser fuel st v).2

/-! ### Supporting lemmas -/

theorem setCurrentUser_trace_cons (fuel : Nat) (st : CState) (v : Option User) :
    ∃ tr, (setCurrentUser fuel st v).2 = Event.mutateEv v :: tr := by
  cases fuel <;> exact ⟨_, rfl⟩

theorem lookupL_mem (l : List (Nat × LBehavior)) (i : Nat) (b : LBehavior)
    (h : lookupL l i = some b) : i ∈ l.map Prod.fst := by
  induction l with
  | nil => simp [lookupL] at h
  | cons e rest ih =>
    obtain ⟨j, c⟩ := e
    by_cases hj : j = i
    · simp [hj]
    · rw [lookupL, if_neg hj] at h
      simpa using Or.inr (ih h)

theorem addListener_cachedUser (st : CState) (i : Nat) (b : LBehavior) :
    (addListener st i b).cachedUser = st.cachedUser := by
  unfold addListener
  cases lookupL st.listeners i <;> rfl

theorem mem_addListener (st : CState) (i : Nat) (b : LBehavior) :
    i ∈ (addListener st i b).listeners.map Prod.fst := by
  unfold addListener
  cases h : lookupL st.listeners i with
  | none => simp
  | some c => exact lookupL_mem _ _ _ h

/-- The immediate `listener(cachedUser)` call: its trace starts with the
notification of the invoked listener carrying the current value, and any
further events are preceded by a mutation event. -/
theorem invokeWith_trace (fuel : Nat) (st1 : CState) (i : Nat) (b : LBehavior) :
    (invokeWith (fun st2 w => setCurrentUser fuel st2 w) st1 i b).2.head? =
        some (Event.notifyEv i st1.cachedUser)
    ∧ (invokeWith (fun st2 w => setCurrentUser fuel st2 w) st1 i b).2.takeWhile
        (fun e => !e.isMutate) = [Event.notifyEv i st1.cachedUser] := by
  cases b with
  | passive => simp [invokeWith, Event.isMutate]
  | unsubSelfOnNotify => simp [invokeWith, Event.isMutate]
  | setOnNotify v armed =>
    cases armed with
    | false => simp [invokeWith, Event.isMutate]
    | true =>
      obtain ⟨tr, htr⟩ := setCurrentUser_trace_cons fuel
        { st1 with listeners := disarmL st1.listeners i } v
      simp [invokeWith, htr, Event.isMutate]

/-- Claim C1: for every cache state (user present or absent) and every
already-registered listener set, `subscribe` registers the listener and the
run of `subscribe` synchronously invokes it exactly once with the cache's
value current at subscription time, before any subsequent mutation event
appears in the trace. -/
theorem subscribe_replays_current_value (fuel : Nat) (st : CState) (i : Nat)
    (b : LBehavior) :
    (subscribe fuel st i b).2.head? = some (Event.notifyEv i st.cachedUser)
    ∧ (subscribe fuel st i b).2.takeWhile (fun e => !e.isMutate) =
        [Event.notifyEv i st.cachedUser]
    ∧ i ∈ (addListener st i b).listeners.map Prod.fst := by
  have h := invokeWith_trace fuel (addListener st i b) i b
  rw [addListener_cachedUser] at h
  exact ⟨h.1, h.2, mem_addListener st i b⟩

/-! ### Claim C2: re-entrant mutation during fan-out

The source's `notify` is `listeners.forEach((listener) => listener(cachedUser))`
and `setCurrentUser` calls `notify()` synchronously, so a `setCurrentUser`
issued from inside a listener callback recurses into `notify` inline. -/

def cacheC2 : CState := ⟨none, [(1, .setOnNotify (some uB) true), (2, .passive)]⟩

/-- Claim C2 counterexample: with listener 1 reacting to a notification by a
re-entrant `setCurrentUser` and a passive listener 2 registered after it, the
re-entrant mutation's fan-out is not deferred until the current fan-out has
notified every listener — listener 2 has not yet been notified when the
second mutation's fan-out runs. -/
theorem reentrant_set_not_deferred :
    ¬ reentrantSetDeferred cacheC2 3 (some uA) := by
  unfold reentrantSetDeferred
  decide

/-- Claim C2 (amended): a re-entrant `setCurrentUser` issued from within a
notification callback executes inline as a nested synchronous fan-out that
runs to completion before the outer fan-out continues; listeners not yet
reached by the outer fan-out then observe only the newest value (here
listener 2 is never notified with `v1` and receives `v2` twice). -/
theorem reentrant_set_runs_inline (c v1 v2 : Option User) :
    (setCurrentUser 3 ⟨c, [(1, .setOnNotify v2 true), (2, .passive)]⟩ v1).2 =
      [Event.mutateEv v1, Event.notifyEv 1 v1, Event.mutateEv v2,
       Event.notifyEv 1 v2, Event.notifyEv 2 v2, Event.notifyEv 2 v2] := rfl

/-! ### Claim C10: unsubscribe guarantees -/

theorem lookupL_removeL_self (l : List (Nat × LBehavior)) (i : Nat) :
    lookupL (removeL l i) i = none := by
  induction l with
  | nil => rfl
  | cons e rest ih =>
    obtain ⟨j, c⟩ := e
    by_cases h : j = i
    · simpa [removeL, List.filter_cons, h] using ih
    · simpa [removeL, List.filter_cons, h, lookupL] using ih

theorem lookupL_filter_none (l : List (Nat × LBehavior))
    (p : Nat × LBehavior → Bool) (i : Nat) (h : lookupL l i = none) :
    lookupL (l.filter p) i = none := by
  induction l with
  | nil => rfl
  | cons e rest ih =>
    obtain ⟨j, c⟩ := e
    by_cases hj : j = i
    · rw [lookupL, if_pos hj] at h
      cases h
    · rw [lookupL, if_neg hj] at h
      by_cases hp : p (j, c)
      · simpa [List.filter_cons, hp, lookupL, hj] using ih h
      · simpa [List.filter_cons, hp] using ih h

theorem lookupL_map_fst_none (l : List (Nat × LBehavior))
    (f : Nat × LBehavior → Nat × LBehavior) (hf : ∀ e, (f e).1 = e.1)
    (i : Nat) (h : lookupL l i = none) : lookupL (l.map f) i = none := by
  induction l with
  | nil => rfl
  | cons e rest ih =>
    obtain ⟨k, c⟩ := e
    by_cases hk : k = i
    · rw [lookupL, if_pos hk] at h
      cases h
    · rw [lookupL, if_neg hk] at h
      rcases hfk : f (k, c) with ⟨k2, c2⟩
      have hk2 : k2 = k := by
        have := hf (k, c)
        rw [hfk] at this
        exact this
      rw [List.map_cons, hfk, lookupL, if_neg (by rw [hk2]; exact hk)]
      exact ih h

theorem lookupL_disarmL_none (l : List (Nat × LBehavior)) (i j : Nat)
    (h : lookupL l i = none) : lookupL (disarmL l j) i = none := by
  refine lookupL_map_fst_none l _ ?_ i h
  intro e
  by_cases he : e.1 = j
  · rw [if_pos he]
  · rw [if_neg he]

/-- A listener absent from the set is neither notified by a callback run nor
re-added by it. -/
theorem invokeWith_not_notified
    (recSet : CState → Option User → CState × List Event) (i : Nat)
    (hrec : ∀ st v, lookupL st.listeners i = none →
      lookupL (recSet st v).1.listeners i = none
        ∧ notifiesL i (recSet st v).2 = false)
    (st : CState) (j : Nat) (b : LBehavior) (hji : j ≠ i)
    (h : lookupL st.listeners i = none) :
    lookupL (invokeWith recSet st j b).1.listeners i = none
      ∧ notifiesL i (invokeWith recSet st j b).2 = false := by
  cases b with
  | passive => simpa [invokeWith, notifiesL, Event.notifyId, hji] using h
  | unsubSelfOnNotify =>
    exact ⟨lookupL_filter_none _ _ _ h, by simp [invokeWith, notifiesL, Event.notifyId, hji]⟩
  | setOnNotify v armed =>
    cases armed with
    | false => simpa [invokeWith, notifiesL, Event.notifyId, hji] using h
    | true =>
      have h1 : lookupL (disarmL st.listeners j) i = none := lookupL_disarmL_none _ _ _ h
      obtain ⟨h2, h3⟩ := hrec { st with listeners := disarmL st.listeners j } v h1
      exact ⟨h2, by simp [invokeWith, notifiesL, Event.notifyId, hji, notifiesL] at h3 ⊢; exact h3⟩

/-- Fan-out never notifies, nor re-registers, a listener absent from the set. -/
theorem notifyAllWith_not_notified
    (recSet : CState → Option User → CState × List Event) (i : Nat)
    (hrec : ∀ st v, lookupL st.listeners i = none →
      lookupL (recSet st v).1.listeners i = none
        ∧ notifiesL i (recSet st v).2 = false) :
    ∀ (ids : List Nat) (st : CState), lookupL st.listeners i = none →
      lookupL (notifyAllWith recSet st ids).1.listeners i = none
        ∧ notifiesL i (notifyAllWith recSet st ids).2 = false := by
  intro ids
  induction ids with
  | nil => intro st h; simpa [notifyAllWith, notifiesL] using h
  | cons j rest ih =>
    intro st h
    cases hl : lookupL st.listeners j with
    | none =>
      simpa [notifyAllWith, hl] using ih st h
    | some b =>
      have hji : j ≠ i := by
        intro e
        rw [e, h] at hl
        cases hl
      obtain ⟨h1, h2⟩ := invokeWith_not_notified recSet i hrec st j b hji h
      obtain ⟨h3, h4⟩ := ih _ h1
      refine ⟨by simpa [notifyAllWith, hl] using h3, ?_⟩
      simp [notifyAllWith, hl, notifiesL, List.any_append] at h2 h4 ⊢
      exact ⟨h2, h4⟩

/-- A listener absent from the set receives no notification from a mutation,
however deeply re-entrant the run, and stays absent. -/
theorem setCurrentUser_not_notified (i : Nat) :
    ∀ (fuel : Nat) (st : CState) (v : Option User),
      lookupL st.listeners i = none →
        lookupL (setCurrentUser fuel st v).1.listeners i = none
          ∧ notifiesL i (setCurrentUser fuel st v).2 = false := by
  intro fuel
  induction fuel with
  | zero =>
    intro st v h
    simpa [setCurrentUser, notifiesL, Event.notifyId] using h
  | succ fuel ih =>
    intro st v h
    obtain ⟨h1, h2⟩ := notifyAllWith_not_notified
      (fun st2 w => setCurrentUser fuel st2 w) i (fun st2 w hw => ih st2 w hw)
      (({ st with cachedUser := v } : CState).listeners.map Prod.fst)
      { st with cachedUser := v } h
    refine ⟨by simpa [setCurrentUser] using h1, ?_⟩
    simp [setCurrentUser, notifiesL, Event.notifyId] at h2 ⊢
    exact h2

def cacheC10 : CState := ⟨none, [(1, .unsubSelfOnNotify), (2, .passive)]⟩

/-- Claim C10: after calling the unsubscribe token, the listener receives no
notification from any later `setCurrentUser` or `clear`; calling the token
repeatedly is idempotent; and a listener that unsubscribes from within its own
notification callback (here listener 1 of `cacheC10`, during the first
mutation's fan-out) receives no notification from the next mutation. -/
theorem unsubscribe_guarantees :
    (∀ (st : CState) (i fuel : Nat) (v : Option User),
      notifiesL i (setCurrentUser fuel (unsubscribe st i) v).2 = false)
    ∧ (∀ (st : CState) (i fuel : Nat),
      notifiesL i (clear fuel (unsubscribe st i)).2 = false)
    ∧ (∀ (st : CState) (i : Nat), unsubscribe (unsubscribe st i) i = unsubscribe st i)
    ∧ notifiesL 1
        (setCurrentUser 3 (setCurrentUser 3 cacheC10 (some uA)).1 (some uB)).2 = false := by
  refine ⟨?_, ?_, ?_, by decide⟩
  · intro st i fuel v
    exact (setCurrentUser_not_notified i fuel (unsubscribe st i) v
      (lookupL_removeL_self st.listeners i)).2
  · intro st i fuel
    exact (setCurrentUser_not_notified i fuel (unsubscribe st i) none
      (lookupL_removeL_self st.listeners i)).2
  · intro st i
    simp [unsubscribe, removeL, List.filter_filter]

/-! ## ProfileSyncController (the account-settings page)

Pure embedding of the page's decision logic: the editable form state, the
change-set (`payload`) construction, the submit handler with its error
taxonomy, and the initial-fetch completion handler.  React state setters are
modelled by returning the final values of the touched state cells; the
external service is modelled by the response the call would produce. -/

/-- `defaultFormState`'s shape: the five editable fields. -/
structure FormState where
  username : String
  email : String
  avatar : String
  password : String
  passwordConfirmation : String
deriving DecidableEq, Repr

def defaultFormState : Option User → FormState
  | some u => ⟨u.username, u.email, u.avatar.getD "", "", ""⟩
  | none => ⟨"", "", "", "", ""⟩

/-- `FieldErrorMap`: per-field messages plus the general slot. -/
structure FieldErrorMap where
  username : Option String := none
  email : Option String := none
  avatar : Option String := none
  password : Option String := none
  passwordConfirmation : Option String := none
  general : Option String := none
deriving DecidableEq, Repr

/-- `UpdateCurrentUserRequest`: each field is absent or present; a present
avatar is itself a string or the explicit `null` that clears it. -/
structure UpdatePayload where
  username : Option String := none
  email : Option String := none
  avatar : Option (Option String) := none
  password : Option String := none
  password_confirmation : Option String := none
deriving DecidableEq, Repr

/-- `Object.keys(payload).length === 0`. -/
def UpdatePayload.isEmpty (p : UpdatePayload) : Bool :=
  p.username.isNone && p.email.isNone && p.avatar.isNone
    && p.password.isNone && p.password_confirmation.isNone

/-- JS `s || ''` on a string: the identity, spelled as the source spells it. -/
def jsOrEmpty (s : String) : String :=
  if s = "" then "" else s

/-- The whitespace class stripped by JS `String.prototype.trim()`. -/
def jsWhitespace (c : Char) : Bool :=
  c == ' ' || c == '\t' || c == '\n' || c == '\r' || c == '\x0b' || c == '\x0c'

/-- JS `s.trim()`: strip leading and trailing whitespace. -/
def jsTrim (s : String) : String :=
  ⟨((s.data.dropWhile jsWhitespace).reverse.dropWhile jsWhitespace).reverse⟩

/-- JS `s.toLowerCase()` on the character range the form handles. -/
def jsToLower (s : String) : String :=
  ⟨s.data.map Char.toLower⟩

def trimmedAvatar (form : FormState) : String := jsTrim form.avatar

def hasProfileChanges (cu : User) (form : FormState) : Bool :=
  (jsTrim form.username != cu.username)
    || (jsToLower (jsTrim form.email) != jsToLower cu.email)
    || (jsOrEmpty (trimmedAvatar form) != cu.avatar.getD "")

def hasPasswordChanges (form : FormState) : Bool :=
  decide (0 < form.password.length) || decide (0 < form.passwordConfirmation.length)

/-- The change-set built by `handleSubmit` (lines 137-156 of the source). -/
def buildPayload (cu : User) (form : FormState) : UpdatePayload :=
  let p : UpdatePayload := {}
  let p :=
    if hasProfileChanges cu form then
      let p :=
        if jsTrim form.username != "" && jsTrim form.username != cu.username then
          { p with username := some (jsTrim form.username) }
        else p
      let p :=
        if jsTrim form.email != "" && jsToLower (jsTrim form.email) != jsToLower cu.email then
          { p with email := some (jsTrim form.email) }
        else p
      let p :=
        if jsOrEmpty (trimmedAvatar form) != cu.avatar.getD "" then
          let av : Option String :=
            if 0 < (trimmedAvatar form).length then some (trimmedAvatar form) else none
          { p with avatar := some av }
        else p
      p
    else p
  if hasPasswordChanges form then
    { p with password := some form.password,
             password_confirmation := some form.passwordConfirmation }
  else p

/-- A server-reported field error value: one message or several. -/
inductive ErrVal where
  | one (s : String)
  | many (l : List String)
deriving DecidableEq, Repr

/-- `Array.isArray(value) ? value.join(' ') : value`. -/
def joinedMessage : ErrVal → String
  | .one s => s
  | .many l => String.intercalate " " l

/-- The own property names of the form-state object literal. -/
def formStateKeys : List String :=
  ["username", "email", "avatar", "password", "passwordConfirmation"]

/-- The property names a plain object literal inherits from
`Object.prototype`; the JS `in` operator walks the prototype chain, so
`key in formState` is also true for each of these. -/
def objectPrototypeKeys : List String :=
  ["constructor", "hasOwnProperty", "isPrototypeOf", "propertyIsEnumerable",
   "toLocaleString", "toString", "valueOf", "__defineGetter__",
   "__defineSetter__", "__lookupGetter__", "__lookupSetter__", "__proto__"]

/-- JS `key in formState`: an own key or an inherited prototype property. -/
def jsInFormState (key : String) : Bool :=
  decide (key ∈ formStateKeys) || decide (key ∈ objectPrototypeKeys)

/-- The mutable `validationErrors` object: the six slots its consumers read,
plus the writes performed through inherited-prototype key names
(`validationErrors["toString"] = msg` and the like), which no consumer reads
(a write through `__proto__` is even silently swallowed by the inherited
setter). -/
structure ValidationErrObj where
  fields : FieldErrorMap := {}
  stray : List (String × String) := []
deriving DecidableEq, Repr

/-- One iteration of the `for (const [key, value] of Object.entries(data.errors))`
loop body: route the normalized message, overwriting.  A key that passes the
`key in formState` test without naming one of the five own fields is an
inherited prototype name; `validationErrors[key] = message` then writes
through that name instead of any display slot. -/
def assignError (m : ValidationErrObj) (key : String) (msg : String) :
    ValidationErrObj :=
  if key = "password_confirmation" then
    { m with fields := { m.fields with passwordConfirmation := some msg } }
  else if jsInFormState key then
    (if key = "username" then { m with fields := { m.fields with username := some msg } }
     else if key = "email" then { m with fields := { m.fields with email := some msg } }
     else if key = "avatar" then { m with fields := { m.fields with avatar := some msg } }
     else if key = "password" then { m with fields := { m.fields with password := some msg } }
     else if key = "passwordConfirmation" then
       { m with fields := { m.fields with passwordConfirmation := some msg } }
     else { m with stray := m.stray.filter (fun e => e.1 ≠ key) ++ [(key, msg)] })
  else { m with fields := { m.fields with general := some msg } }

/-- The full loop over the server's per-field error entries, in object-entry
order. -/
def mapValidationErrors (entries : List (String × ErrVal)) : ValidationErrObj :=
  entries.foldl (fun m e => assignError m e.1 (joinedMessage e.2)) {}

/-- The body of a non-2xx axios response: optional single message, optional
per-field entries. -/
structure ErrorBody where
  error : Option String := none
  errors : Option (List (String × ErrVal)) := none
deriving DecidableEq, Repr

/-- The error-branch mapping for a non-401 response (lines 185-209), as its
consumers observe it: `setFieldErrors(validationErrors)` stores the whole
object but every reader consults only the six display slots, so the result is
the display projection of the mapping. -/
def errorFieldMap (body : ErrorBody) : FieldErrorMap :=
  match body.errors with
  | some entries => (mapValidationErrors entries).fields
  | none =>
    match body.error with
    | some s => { general := some s }
    | none => { general := some "Failed to update account settings." }

/-- What the external service does with the submission. -/
inductive SubmitOutcome where
  /-- `updateCurrentUser` resolves with the canonical user. -/
  | success (u : User)
  /-- an axios error carrying a response with this HTTP status and body. -/
  | httpError (status : Nat) (body : ErrorBody)
  /-- anything else thrown (no response / not an axios error). -/
  | networkError
deriving DecidableEq, Repr

/-- Effect of a run on the shared cache. -/
inductive CacheOp where
  | untouched
  | set (u : User)
  | clear
deriving DecidableEq, Repr

def applyCacheOp (op : CacheOp) (cache : Option User) : Option User :=
  match op with
  | .untouched => cache
  | .set u => some u
  | .clear => none

/-- Everything `handleSubmit` leaves behind: the error map and status message
it set, the form state after completion, how many service calls it issued,
its effect on the shared cache, the navigations it performed, and whether it
entered the `Submitting` state. -/
structure SubmitResult where
  fieldErrors : FieldErrorMap
  successMessage : Option String
  form : FormState
  apiCalls : Nat
  cacheOp : CacheOp
  navigations : List String
  enteredSubmitting : Bool
deriving DecidableEq, Repr

/-- `resetPasswordFields` (lines 114-120). -/
def resetPasswordFields (form : FormState) : FormState :=
  { form with password := "", passwordConfirmation := "" }

/-- `handleSubmit` (lines 122-217), as a function of the current user, the
form draft and the response the service would give if called.  The `finally`
block (stop submitting, clear password fields) applies on every path that
issued the call, including the 401 path's early `return`. -/
def handleSubmit (currentUser : Option User) (form : FormState)
    (resp : SubmitOutcome) : SubmitResult :=
  match currentUser with
  | none =>
    { fieldErrors := { general := some "Unable to update profile until your account loads." },
      successMessage := none, form := form, apiCalls := 0,
      cacheOp := .untouched, navigations := [], enteredSubmitting := false }
  | some cu =>
    if hasPasswordChanges form && form.password != form.passwordConfirmation then
      { fieldErrors := { passwordConfirmation := some "Passwords do not match." },
        successMessage := none, form := form, apiCalls := 0,
        cacheOp := .untouched, navigations := [], enteredSubmitting := false }
    else
      let payload := buildPayload cu form
      if payload.isEmpty then
        { fieldErrors := {},
          successMessage := some "Nothing to update — your settings are already current.",
          form := form, apiCalls := 0, cacheOp := .untouched,
          navigations := [], enteredSubmitting := false }
      else
        match resp with
        | .success u =>
          { fieldErrors := {},
            successMessage := some "Profile updated successfully.",
            form := resetPasswordFields
              { form with username := u.username, email := u.email,
                          avatar := u.avatar.getD "",
                          password := "", passwordConfirmation := "" },
            apiCalls := 1, cacheOp := .set u, navigations := [],
            enteredSubmitting := true }
        | .httpError status body =>
          if status = 401 then
            { fieldErrors := {}, successMessage := none,
              form := resetPasswordFields form, apiCalls := 1,
              cacheOp := .clear, navigations := ["/login"],
              enteredSubmitting := true }
          else
            { fieldErrors := errorFieldMap body, successMessage := none,
              form := resetPasswordFields form, apiCalls := 1,
              cacheOp := .untouched, navigations := [],
              enteredSubmitting := true }
        | .networkError =>
          { fieldErrors := { general := some "An unexpected error occurred while saving your settings." },
            successMessage := none, form := resetPasswordFields form,
            apiCalls := 1, cacheOp := .untouched, navigations := [],
            enteredSubmitting := true }

/-- What the initial fetch resolves or throws with. -/
inductive FetchOutcome where
  | ok (u : User)
  /-- any thrown error; the catch block never inspects it, so the optional
  HTTP status is carried only to state claims about it. -/
  | error (status : Option Nat)
deriving DecidableEq, Repr

/-- Effect of `fetchUser`'s completion (lines 60-75). -/
structure FetchResult where
  cacheOp : CacheOp
  navigations : List String
  loadError : Option String
deriving DecidableEq, Repr

/-- `fetchUser` (lines 60-75): on success, write the user into the cache; on
any failure, set a generic load error and stop loading — the catch block
performs no status check, no cache mutation and no navigation. -/
def fetchUserRun : FetchOutcome → FetchResult
  | .ok u => { cacheOp := .set u, navigations := [], loadError := none }
  | .error _ =>
    { cacheOp := .untouched, navigations := [],
      loadError := some "Failed to load account details." }

example :
    (handleSubmit (some uA) ⟨"ann", "ann@example.com", "", "", ""⟩
      (.success uB)).successMessage =
      some "Nothing to update — your settings are already current." := by decide

example :
    (handleSubmit (some uA) ⟨"annie", "ann@example.com", "", "", ""⟩
      (.success uB)).cacheOp = .set uB := by decide

/-! ### String facts and branch lemmas for the submit handler -/

theorem jsOrEmpty_eq (s : String) : jsOrEmpty s = s := by
  unfold jsOrEmpty
  by_cases h : s = "" <;> simp [h]

theorem string_length_pos_iff (s : String) : 0 < s.length ↔ s ≠ "" := by
  cases s with
  | mk data =>
    cases data with
    | nil => decide
    | cons c cs =>
      constructor
      · intro _ h
        exact List.cons_ne_nil c cs (congrArg String.data h)
      · intro _
        exact Nat.succ_pos cs.length

theorem string_eq_empty_of_length_zero (s : String) (h : s.length = 0) : s = "" := by
  by_contra hne
  have := (string_length_pos_iff s).mpr hne
  omega

theorem hasPasswordChanges_false_iff (form : FormState) :
    hasPasswordChanges form = false ↔
      form.password = "" ∧ form.passwordConfirmation = "" := by
  unfold hasPasswordChanges
  constructor
  · intro h
    simp only [Bool.or_eq_false_iff, decide_eq_false_iff_not, Nat.not_lt] at h
    exact ⟨string_eq_empty_of_length_zero _ (Nat.le_zero.mp h.1),
      string_eq_empty_of_length_zero _ (Nat.le_zero.mp h.2)⟩
  · intro h
    rw [h.1, h.2]
    decide

theorem hasPasswordChanges_of_ne (form : FormState)
    (h : form.password ≠ form.passwordConfirmation) :
    hasPasswordChanges form = true := by
  cases hb : hasPasswordChanges form with
  | true => rfl
  | false =>
    obtain ⟨h1, h2⟩ := (hasPasswordChanges_false_iff form).mp hb
    rw [h1, h2] at h
    exact absurd rfl h

theorem buildPayload_isEmpty_no_password (cu : User) (form : FormState)
    (h : (buildPayload cu form).isEmpty = true) :
    hasPasswordChanges form = false := by
  cases hp : hasPasswordChanges form with
  | false => rfl
  | true =>
    exfalso
    simp [buildPayload, hp, UpdatePayload.isEmpty] at h

/-! ### Claim C3: authorization-error responses -/

/-- Claim C3 counterexample: an authorization-error (401) answer to the
initial fetch does not fire the navigation signal at all (the fetch catch
block never inspects the status); the claim requires exactly one
navigation-to-login. -/
theorem fetch_auth_error_does_not_navigate :
    (fetchUserRun (.error (some 401))).navigations.length ≠ 1
    ∧ (fetchUserRun (.error (some 401))).loadError =
        some "Failed to load account details."
    ∧ (fetchUserRun (.error (some 401))).cacheOp = .untouched := by
  decide

/-- Claim C3 (amended): a 401 answer to a submission that reached the service
clears the cache and fires the navigation-to-login signal exactly once, with
no per-field error mapping; a 401 answer to the initial fetch is handled by
the generic fetch catch instead — no navigation, no cache mutation, only a
generic load error. -/
theorem auth_error_handling :
    (∀ (cu : User) (form : FormState) (body : ErrorBody),
      (handleSubmit (some cu) form (.httpError 401 body)).apiCalls = 1 →
        (handleSubmit (some cu) form (.httpError 401 body)).cacheOp = .clear
        ∧ (handleSubmit (some cu) form (.httpError 401 body)).navigations = ["/login"]
        ∧ (handleSubmit (some cu) form (.httpError 401 body)).fieldErrors = {}
        ∧ ∀ cache0 : Option User,
            applyCacheOp (handleSubmit (some cu) form (.httpError 401 body)).cacheOp cache0 = none)
    ∧ (∀ s : Option Nat,
        (fetchUserRun (.error s)).cacheOp = .untouched
        ∧ (fetchUserRun (.error s)).navigations = []
        ∧ (fetchUserRun (.error s)).loadError =
            some "Failed to load account details.") := by
  constructor
  · intro cu form body h
    cases hg : hasPasswordChanges form && form.password != form.passwordConfirmation with
    | true => simp [handleSubmit, hg] at h
    | false =>
      cases hp : (buildPayload cu form).isEmpty with
      | true => simp [handleSubmit, hg, hp] at h
      | false => simp [handleSubmit, hg, hp, applyCacheOp]
  · intro s
    exact ⟨rfl, rfl, rfl⟩

-- a draft differing from the cached user (username edited)
def formChanged : FormState := ⟨"annie", "ann@example.com", "", "", ""⟩

theorem auth_error_handling_witness :
    (handleSubmit (some uA) formChanged (.httpError 401 {})).apiCalls = 1
    ∧ (handleSubmit (some uA) formChanged (.httpError 401 {})).cacheOp = .clear
    ∧ (handleSubmit (some uA) formChanged (.httpError 401 {})).navigations = ["/login"] :=
  ⟨by decide,
    (auth_error_handling.1 uA formChanged {} (by decide)).1,
    (auth_error_handling.1 uA formChanged {} (by decide)).2.1⟩

/-! ### Claim C4: cache effect of a submission that reaches the service -/

/-- Claim C4: for every submission that reaches the external service, a
successful response replaces the cache with exactly the server-returned user
(whatever the locally typed draft was), while a validation-error or any other
non-authorization failure leaves the cache value untouched. -/
theorem submission_cache_effects (cu : User) (form : FormState)
    (resp : SubmitOutcome)
    (h : (handleSubmit (some cu) form resp).apiCalls = 1) :
    (∀ u, resp = .success u →
      (handleSubmit (some cu) form resp).cacheOp = .set u
      ∧ ∀ cache0 : Option User,
          applyCacheOp (handleSubmit (some cu) form resp).cacheOp cache0 = some u)
    ∧ (∀ status body, resp = .httpError status body → status ≠ 401 →
      (handleSubmit (some cu) form resp).cacheOp = .untouched)
    ∧ (resp = .networkError →
      (handleSubmit (some cu) form resp).cacheOp = .untouched) := by
  cases hg : hasPasswordChanges form && form.password != form.passwordConfirmation with
  | true => simp [handleSubmit, hg] at h
  | false =>
    cases hp : (buildPayload cu form).isEmpty with
    | true => simp [handleSubmit, hg, hp] at h
    | false =>
      refine ⟨?_, ?_, ?_⟩
      · intro u hr
        subst hr
        simp [handleSubmit, hg, hp, applyCacheOp]
      · intro status body hr hs
        subst hr
        simp [handleSubmit, hg, hp, hs]
      · intro hr
        subst hr
        simp [handleSubmit, hg, hp]

theorem submission_cache_effects_witness :
    (handleSubmit (some uA) formChanged (.success uB)).apiCalls = 1
    ∧ (handleSubmit (some uA) formChanged (.success uB)).cacheOp = .set uB :=
  ⟨by decide,
    ((submission_cache_effects uA formChanged (.success uB) (by decide)).1 uB rfl).1⟩

/-! ### Claim C5: password-field clearing -/

-- only the password fields differ from the cached user, and they mismatch
def formMismatch : FormState := ⟨"ann", "ann@example.com", "", "alpha", "beta"⟩

/-- Claim C5 counterexample: a submission attempt that fails the local
password-match validation completes with the password fields still holding
the typed input — they are not cleared. -/
theorem mismatch_keeps_password_fields :
    ¬ ((handleSubmit (some uA) formMismatch .networkError).form.password = ""
       ∧ (handleSubmit (some uA) formMismatch
            .networkError).form.passwordConfirmation = "") := by
  decide

/-- Claim C5 (amended): every submission attempt that reaches the external
service completes with both password fields empty, whatever the outcome, and
the empty-change-set no-op completes with both empty (they were necessarily
empty already); but an attempt rejected by the local password-match
validation, or by the missing-user guard, returns before the clearing step
and leaves the whole form — password fields included — unchanged. -/
theorem password_clearing_on_completion :
    (∀ (cu : User) (form : FormState) (resp : SubmitOutcome),
      (handleSubmit (some cu) form resp).apiCalls = 1 →
        (handleSubmit (some cu) form resp).form.password = ""
        ∧ (handleSubmit (some cu) form resp).form.passwordConfirmation = "")
    ∧ (∀ (cu : User) (form : FormState) (resp : SubmitOutcome),
      (handleSubmit (some cu) form resp).successMessage =
          some "Nothing to update — your settings are already current." →
        (handleSubmit (some cu) form resp).form.password = ""
        ∧ (handleSubmit (some cu) form resp).form.passwordConfirmation = "")
    ∧ (∀ (cu : User) (form : FormState) (resp : SubmitOutcome),
      form.password ≠ form.passwordConfirmation →
        (handleSubmit (some cu) form resp).form = form)
    ∧ (∀ (form : FormState) (resp : SubmitOutcome),
      (handleSubmit none form resp).form = form) := by
  refine ⟨?_, ?_, ?_, ?_⟩
  · intro cu form resp h
    cases hg : hasPasswordChanges form && form.password != form.passwordConfirmation with
    | true => simp [handleSubmit, hg] at h
    | false =>
      cases hp : (buildPayload cu form).isEmpty with
      | true => simp [handleSubmit, hg, hp] at h
      | false =>
        cases resp with
        | success u => simp [handleSubmit, hg, hp, resetPasswordFields]
        | httpError status body =>
          by_cases hs : status = 401 <;>
            simp [handleSubmit, hg, hp, hs, resetPasswordFields]
        | networkError => simp [handleSubmit, hg, hp, resetPasswordFields]
  · intro cu form resp h
    cases hg : hasPasswordChanges form && form.password != form.passwordConfirmation with
    | true => simp [handleSubmit, hg] at h
    | false =>
      cases hp : (buildPayload cu form).isEmpty with
      | true =>
        have := (hasPasswordChanges_false_iff form).mp
          (buildPayload_isEmpty_no_password cu form hp)
        simpa [handleSubmit, hg, hp] using this
      | false =>
        exfalso
        cases resp with
        | success u => simp [handleSubmit, hg, hp] at h
        | httpError status body =>
          by_cases hs : status = 401 <;> simp [handleSubmit, hg, hp, hs] at h
        | networkError => simp [handleSubmit, hg, hp] at h
  · intro cu form resp h
    have hg : (hasPasswordChanges form && form.password != form.passwordConfirmation) = true := by
      simp [hasPasswordChanges_of_ne form h, h]
    simp [handleSubmit, hg]
  · intro form resp
    simp [handleSubmit]

theorem password_clearing_witness :
    (handleSubmit (some uA) ⟨"ann", "ann@example.com", "", "alpha", "alpha"⟩
      .networkError).apiCalls = 1
    ∧ (handleSubmit (some uA) ⟨"ann", "ann@example.com", "", "alpha", "alpha"⟩
        .networkError).form.password = "" :=
  ⟨by decide,
    (password_clearing_on_completion.1 uA
      ⟨"ann", "ann@example.com", "", "alpha", "alpha"⟩ .networkError (by decide)).1⟩

/-! ### Claim C6: empty change-set short-circuit -/

/-- Claim C6: when the form agrees with the cached user under the change-set
equality rules and both password fields are empty, submission reports the
"nothing to update" success and issues zero calls to the external service. -/
theorem empty_changeset_noop (cu : User) (form : FormState) (resp : SubmitOutcome)
    (h1 : jsTrim form.username = cu.username)
    (h2 : jsToLower (jsTrim form.email) = jsToLower cu.email)
    (h3 : jsTrim form.avatar = cu.avatar.getD "")
    (h4 : form.password = "") (h5 : form.passwordConfirmation = "") :
    (handleSubmit (some cu) form resp).successMessage =
      some "Nothing to update — your settings are already current."
    ∧ (handleSubmit (some cu) form resp).apiCalls = 0
    ∧ (handleSubmit (some cu) form resp).cacheOp = .untouched
    ∧ (handleSubmit (some cu) form resp).navigations = [] := by
  have hpw : hasPasswordChanges form = false :=
    (hasPasswordChanges_false_iff form).mpr ⟨h4, h5⟩
  have hpc : hasProfileChanges cu form = false := by
    simp [hasProfileChanges, trimmedAvatar, jsOrEmpty_eq, h1, h2, h3]
  have hpayload : (buildPayload cu form).isEmpty = true := by
    simp [buildPayload, hpc, hpw, UpdatePayload.isEmpty]
  simp [handleSubmit, hpw, hpayload]

theorem empty_changeset_noop_witness :
    (handleSubmit (some uB) ⟨" bob ", "BOB@example.com", "https://x/b.png", "", ""⟩
      .networkError).successMessage =
        some "Nothing to update — your settings are already current."
    ∧ (handleSubmit (some uB) ⟨" bob ", "BOB@example.com", "https://x/b.png", "", ""⟩
        .networkError).apiCalls = 0 :=
  ⟨(empty_changeset_noop uB ⟨" bob ", "BOB@example.com", "https://x/b.png", "", ""⟩
      .networkError (by decide) (by decide) (by decide) rfl rfl).1,
   (empty_changeset_noop uB ⟨" bob ", "BOB@example.com", "https://x/b.png", "", ""⟩
      .networkError (by decide) (by decide) (by decide) rfl rfl).2.1⟩

/-! ### Claim C7: local password-mismatch validation -/

/-- Claim C7: when the password and confirmation fields differ, submission
produces exactly the confirmation-field error, issues zero service calls, and
the controller stays in `Ready`: it never enters `Submitting`, touches the
cache, navigates, or reports success. -/
theorem password_mismatch_local_error (cu : User) (form : FormState)
    (resp : SubmitOutcome) (h : form.password ≠ form.passwordConfirmation) :
    (handleSubmit (some cu) form resp).fieldErrors =
      { passwordConfirmation := some "Passwords do not match." }
    ∧ (handleSubmit (some cu) form resp).apiCalls = 0
    ∧ (handleSubmit (some cu) form resp).enteredSubmitting = false
    ∧ (handleSubmit (some cu) form resp).cacheOp = .untouched
    ∧ (handleSubmit (some cu) form resp).navigations = []
    ∧ (handleSubmit (some cu) form resp).successMessage = none := by
  have hg : (hasPasswordChanges form && form.password != form.passwordConfirmation) = true := by
    simp [hasPasswordChanges_of_ne form h, h]
  simp [handleSubmit, hg]

theorem password_mismatch_local_error_witness :
    (handleSubmit (some uA) formMismatch .networkError).fieldErrors =
      { passwordConfirmation := some "Passwords do not match." }
    ∧ (handleSubmit (some uA) formMismatch .networkError).apiCalls = 0 :=
  ⟨(password_mismatch_local_error uA formMismatch .networkError (by decide)).1,
   (password_mismatch_local_error uA formMismatch .networkError (by decide)).2.1⟩

/-! ### Claim C8: the change-set rules -/

/-- The change-set characterized field by field, following the spec's stated
equality and inclusion rules, for comparison with `buildPayload`. -/
def specChangeSet (cu : User) (form : FormState) : UpdatePayload :=
  { username :=
      if jsTrim form.username ≠ cu.username ∧ jsTrim form.username ≠ "" then
        some (jsTrim form.username)
      else none,
    email :=
      if jsToLower (jsTrim form.email) ≠ jsToLower cu.email ∧ jsTrim form.email ≠ "" then
        some (jsTrim form.email)
      else none,
    avatar :=
      if jsTrim form.avatar ≠ cu.avatar.getD "" then
        some (if jsTrim form.avatar = "" then none else some (jsTrim form.avatar))
      else none,
    password :=
      if form.password ≠ "" ∨ form.passwordConfirmation ≠ "" then
        some form.password
      else none,
    password_confirmation :=
      if form.password ≠ "" ∨ form.passwordConfirmation ≠ "" then
        some form.passwordConfirmation
      else none }

/-- `buildPayload` in a closed form: each field with its exact inclusion
condition, the per-field conditions still guarded by `hasProfileChanges`. -/
theorem buildPayload_eq_ite (cu : User) (form : FormState) :
    buildPayload cu form =
      { username :=
          if hasProfileChanges cu form ∧ jsTrim form.username ≠ ""
              ∧ jsTrim form.username ≠ cu.username then
            some (jsTrim form.username)
          else none,
        email :=
          if hasProfileChanges cu form ∧ jsTrim form.email ≠ ""
              ∧ jsToLower (jsTrim form.email) ≠ jsToLower cu.email then
            some (jsTrim form.email)
          else none,
        avatar :=
          if hasProfileChanges cu form
              ∧ jsOrEmpty (trimmedAvatar form) ≠ cu.avatar.getD "" then
            some (if 0 < (trimmedAvatar form).length then some (trimmedAvatar form) else none)
          else none,
        password := if hasPasswordChanges form then some form.password else none,
        password_confirmation :=
          if hasPasswordChanges form then some form.passwordConfirmation else none } := by
  unfold buildPayload
  cases h1 : hasProfileChanges cu form <;>
  cases h5 : hasPasswordChanges form <;>
  by_cases h2 : (jsTrim form.username != "" && jsTrim form.username != cu.username) = true <;>
  by_cases h3 : (jsTrim form.email != ""
    && jsToLower (jsTrim form.email) != jsToLower cu.email) = true <;>
  by_cases h4 : (jsOrEmpty (trimmedAvatar form) != cu.avatar.getD "") = true <;>
  simp_all [Bool.and_eq_true, bne_iff_ne] <;>
  split_ifs <;>
  simp_all

theorem username_cond_iff (cu : User) (form : FormState) :
    (hasProfileChanges cu form = true ∧ jsTrim form.username ≠ ""
        ∧ jsTrim form.username ≠ cu.username)
      ↔ (jsTrim form.username ≠ cu.username ∧ jsTrim form.username ≠ "") := by
  constructor
  · rintro ⟨-, hx, hy⟩
    exact ⟨hy, hx⟩
  · rintro ⟨hy, hx⟩
    refine ⟨?_, hx, hy⟩
    simp [hasProfileChanges, hy]

theorem email_cond_iff (cu : User) (form : FormState) :
    (hasProfileChanges cu form = true ∧ jsTrim form.email ≠ ""
        ∧ jsToLower (jsTrim form.email) ≠ jsToLower cu.email)
      ↔ (jsToLower (jsTrim form.email) ≠ jsToLower cu.email ∧ jsTrim form.email ≠ "") := by
  constructor
  · rintro ⟨-, hx, hy⟩
    exact ⟨hy, hx⟩
  · rintro ⟨hy, hx⟩
    refine ⟨?_, hx, hy⟩
    simp [hasProfileChanges, hy]

theorem avatar_cond_iff (cu : User) (form : FormState) :
    (hasProfileChanges cu form = true
        ∧ jsOrEmpty (trimmedAvatar form) ≠ cu.avatar.getD "")
      ↔ jsTrim form.avatar ≠ cu.avatar.getD "" := by
  rw [jsOrEmpty_eq]
  unfold trimmedAvatar
  constructor
  · rintro ⟨-, h⟩
    exact h
  · intro h
    refine ⟨?_, h⟩
    simp [hasProfileChanges, trimmedAvatar, jsOrEmpty_eq, h]

theorem avatar_val_eq (form : FormState) :
    (if 0 < (trimmedAvatar form).length then some (trimmedAvatar form) else none)
      = (if jsTrim form.avatar = "" then none else some (jsTrim form.avatar)) := by
  unfold trimmedAvatar
  by_cases h : jsTrim form.avatar = ""
  · have hlen : ¬ 0 < ("" : String).length := by decide
    simp [h, hlen]
  · simp [h, (string_length_pos_iff (jsTrim form.avatar)).mpr h]

theorem password_pair_cond (form : FormState) :
    hasPasswordChanges form = true
      ↔ (form.password ≠ "" ∨ form.passwordConfirmation ≠ "") := by
  unfold hasPasswordChanges
  simp [string_length_pos_iff]

/-- Claim C8: the outgoing change-set built by the submit handler agrees, for
every form state and cached user, with the spec's field rules: username and
avatar compared as trimmed strings (absent avatar as empty), email compared
case-insensitively after trimming, username/email included exactly when
different and non-empty, avatar included as explicit clear when trimmed-empty
but previously non-empty, and the password pair included exactly when at
least one field is non-empty. -/
theorem buildPayload_eq_specChangeSet (cu : User) (form : FormState) :
    buildPayload cu form = specChangeSet cu form := by
  rw [buildPayload_eq_ite]
  unfold specChangeSet
  congr 1
  · exact if_congr (username_cond_iff cu form) rfl rfl
  · exact if_congr (email_cond_iff cu form) rfl rfl
  · exact if_congr (avatar_cond_iff cu form) (congrArg some (avatar_val_eq form)) rfl
  · exact if_congr (password_pair_cond form) rfl rfl
  · exact if_congr (password_pair_cond form) rfl rfl

/-! ### Claim C9: server validation-error mapping

The `key in formState` test walks the prototype chain, so a key naming an
inherited `Object.prototype` property (toString, valueOf, constructor, ...)
passes it, and the code assigns the message through that name instead of the
general slot — such a response surfaces nowhere. -/

/-- Claim C9 counterexample: a server validation response keyed by the
inherited prototype-property name toString does not route its message to the
general error slot — nothing user-visible is set; the message is written
through the inherited name itself. -/
theorem prototype_key_not_general :
    (mapValidationErrors [("toString", ErrVal.one "boom")]).fields.general ≠
      some "boom"
    ∧ (mapValidationErrors [("toString", ErrVal.one "boom")]).fields = {}
    ∧ (mapValidationErrors [("toString", ErrVal.one "boom")]).stray =
        [("toString", "boom")] := by
  decide

/-- Claim C9 (amended): each server error entry is normalized to one string
(multiple messages joined with spaces); the `password_confirmation` alias
routes to the confirmation field; a key naming any of the five editable form
fields routes to that field; a key found nowhere on the form-state object —
neither an own key nor an inherited prototype property — routes to the
general slot; but a key naming an inherited `Object.prototype` property
passes the `key in formState` test and is assigned through that name instead,
populating no display field and no general error.  A response keyed by
`password_confirmation` and `email` populates exactly those two fields with
no general error. -/
theorem server_error_mapping :
    (∀ v : ErrVal, mapValidationErrors [("password_confirmation", v)] =
      { fields := { passwordConfirmation := some (joinedMessage v) } })
    ∧ (∀ v : ErrVal, mapValidationErrors [("username", v)] =
      { fields := { username := some (joinedMessage v) } })
    ∧ (∀ v : ErrVal, mapValidationErrors [("email", v)] =
      { fields := { email := some (joinedMessage v) } })
    ∧ (∀ v : ErrVal, mapValidationErrors [("avatar", v)] =
      { fields := { avatar := some (joinedMessage v) } })
    ∧ (∀ v : ErrVal, mapValidationErrors [("password", v)] =
      { fields := { password := some (joinedMessage v) } })
    ∧ (∀ v : ErrVal, mapValidationErrors [("passwordConfirmation", v)] =
      { fields := { passwordConfirmation := some (joinedMessage v) } })
    ∧ (∀ (k : String) (v : ErrVal), k ≠ "password_confirmation" →
        k ∉ formStateKeys → k ∉ objectPrototypeKeys →
        mapValidationErrors [(k, v)] =
          { fields := { general := some (joinedMessage v) } })
    ∧ (∀ (k : String) (v : ErrVal), k ∈ objectPrototypeKeys →
        (mapValidationErrors [(k, v)]).fields = {}
        ∧ (mapValidationErrors [(k, v)]).stray = [(k, joinedMessage v)])
    ∧ (∀ ss : List String, joinedMessage (.many ss) = String.intercalate " " ss)
    ∧ (∀ v1 v2 : ErrVal,
        mapValidationErrors [("password_confirmation", v1), ("email", v2)] =
          { fields := { passwordConfirmation := some (joinedMessage v1),
                        email := some (joinedMessage v2) } }) := by
  refine ⟨fun v => rfl, fun v => rfl, fun v => rfl, fun v => rfl, fun v => rfl,
    fun v => rfl, ?_, ?_, fun ss => rfl, fun v1 v2 => rfl⟩
  · intro k v hk1 hk2 hk3
    simp [mapValidationErrors, assignError, jsInFormState, hk1, hk2, hk3]
  · intro k v hk
    fin_cases hk <;> exact ⟨rfl, rfl⟩

theorem server_error_mapping_witness :
    mapValidationErrors [("base", ErrVal.many ["too", "short"])] =
      { fields := { general := some (joinedMessage (ErrVal.many ["too", "short"])) } } :=
  server_error_mapping.2.2.2.2.2.2.1 "base" (ErrVal.many ["too", "short"])
    (by decide) (by decide) (by decide)

end Spec2Proof
